import Mathlib

/-!
Shallow embedding of the Telegram file-gating bot (`src/bot.py`) for the
claims about its membership gate, rate limiter, ephemeral delivery
scheduler, upload wizard and blocked-user handling.

All definitions are translated from the source; external collaborators
(the Telegram gateway and transport) are passed in as function parameters,
so the embedded operations are deterministic functions of (inputs, state).
Times are modelled in milliseconds as naturals; Python `int(x)` on a
positive number of seconds truncates, which for our nonnegative values is
floor, i.e. `Nat` division by 1000.
-/

namespace AsalBot

/-- Result of `bot.get_chat_member(...).status` as consumed by
`check_membership` (membership states of the Telegram API). -/
inductive MemberStatus
  | member
  | administrator
  | creator
  | left
  | kicked
  | restricted
deriving DecidableEq, Repr

/-- The external channel gateway: `get_chat_member(chat_id, user_id)`.
`Except.error` models the call raising an exception. -/
abbrev Gateway := Int → Nat → Except Unit MemberStatus

/-- One entry of `self.mandatory_channels`.  `key` is the dict key, which
the source always builds as `str(chat_id or identifier)` (bot.py:1548,
1584); `chatId` is the value `channel_info.get('chat_id') or
channel_info.get('identifier')` when that value is a (truthy) int — the
only case in which the source performs a gateway call — and `none`
otherwise. -/
structure Channel where
  key : String
  chatId : Option Int
  canAutoVerify : Bool
  buttonText : String
deriving DecidableEq, Repr

/-- `self.user_channel_memberships[user_id]` for one user: a dict from
channel key to bool, modelled as an assoc list where the head shadows the
tail (assignment = prepend). -/
abbrev MemCache := List (String × Bool)

/-- Dict read with falsy default: `memberships.get(channel_key)`. -/
def cacheGet (c : MemCache) (k : String) : Bool :=
  match c with
  | [] => false
  | (k₀, b) :: rest => if k₀ = k then b else cacheGet rest k

/-- Dict assignment `memberships[channel_key] = b`. -/
def cacheSet (c : MemCache) (k : String) (b : Bool) : MemCache :=
  (k, b) :: c

/-- `mark_user_joined_channel` (bot.py:259-264): trust-based marking. -/
def markUserJoinedChannel (c : MemCache) (channelKey : String) : MemCache :=
  cacheSet c channelKey true

/-- The set of gateway statuses `check_membership` accepts:
`['member', 'administrator', 'creator']`. -/
def statusSatisfies (s : MemberStatus) : Bool :=
  s = .member ∨ s = .administrator ∨ s = .creator

/-- Outcome of processing one mandatory channel inside
`check_membership`'s loop (bot.py:203-255): whether the channel was added
to `not_joined`, the updated membership cache, and the chat ids the
gateway was queried for. -/
structure ChannelCheck where
  notJoined : Bool
  cache : MemCache
  calls : List Int
deriving DecidableEq, Repr

/-- One iteration of the `check_membership` loop (bot.py:203-255).
The cached-verified branch rechecks auto-verify channels and, on a
gateway exception, only logs a warning — the cache entry stays `true`.
The fresh branch caches the gateway verdict; on a gateway exception it
appends the channel to `not_joined` (fail-closed); trust-mode channels
with no cache entry are appended without any gateway call. -/
def checkChannel (gw : Gateway) (userId : Nat) (cache : MemCache) (ch : Channel) :
    ChannelCheck :=
  if cacheGet cache ch.key then
    -- already verified via trust or auto-verify
    match ch.chatId with
    | some cid =>
      if ch.canAutoVerify then
        match gw cid userId with
        | .ok st =>
          if statusSatisfies st then ⟨false, cache, [cid]⟩
          else ⟨true, cacheSet cache ch.key false, [cid]⟩
        | .error _ => ⟨false, cache, [cid]⟩
      else ⟨false, cache, []⟩
    | none => ⟨false, cache, []⟩
  else
    match ch.chatId with
    | some cid =>
      if ch.canAutoVerify then
        match gw cid userId with
        | .ok st =>
          if statusSatisfies st then ⟨false, cacheSet cache ch.key true, [cid]⟩
          else ⟨true, cacheSet cache ch.key false, [cid]⟩
        | .error _ => ⟨true, cache, [cid]⟩
      else ⟨true, cache, []⟩
    | none => ⟨true, cache, []⟩

/-- Result of `check_membership` (bot.py:193-257), together with the
updated per-user cache and the log of gateway queries (by chat id). -/
structure MembershipResult where
  isMember : Bool
  notJoined : List Channel
  cache : MemCache
  calls : List Int
deriving DecidableEq, Repr

/-- The loop of `check_membership` over the configured channels. -/
def checkMembershipAux (gw : Gateway) (userId : Nat) :
    List Channel → MemCache → List Channel × MemCache × List Int
  | [], cache => ([], cache, [])
  | ch :: rest, cache =>
    let r := checkChannel gw userId cache ch
    let (nj, cache₂, calls) := checkMembershipAux gw userId rest r.cache
    ((if r.notJoined then [ch] else []) ++ nj, cache₂, r.calls ++ calls)

/-- `check_membership(user_id)` (bot.py:193-257): returns
`(len(not_joined) == 0, not_joined)` plus the cache and call log.
An empty channel list yields `(True, [])`, as in the early return. -/
def checkMembership (gw : Gateway) (userId : Nat) (channels : List Channel)
    (cache : MemCache) : MembershipResult :=
  let (nj, cache₂, calls) := checkMembershipAux gw userId channels cache
  ⟨nj.isEmpty, nj, cache₂, calls⟩

/-! ### Rate limiter (`check_spam`, `is_temp_blocked`, bot.py:312-363) -/

/-- One entry of `self.spam_control`; times in milliseconds. -/
structure SpamInfo where
  requestCount : Nat
  lastRequest : Nat
  blockedUntil : Option Nat
deriving DecidableEq, Repr

/-- The per-user `spam_control` entry (`none` = user not present). -/
abbrev SpamState := Option SpamInfo

/-- `is_temp_blocked(user_id)` (bot.py:350-363): returns
`(blocked, remaining seconds)` and the possibly-mutated state (on expiry
the lockout is popped and the count reset to 0). -/
def isTempBlocked (st : SpamState) (now : Nat) : (Bool × Nat) × SpamState :=
  match st with
  | some info =>
    match info.blockedUntil with
    | some b =>
      if now < b then ((true, (b - now) / 1000), st)
      else ((false, 0), some { info with blockedUntil := none, requestCount := 0 })
    | none => ((false, 0), st)
  | none => ((false, 0), st)

/-- `check_spam(user_id)` (bot.py:312-348): returns `(is_spam, wait)` and
the new state.  Within the 2s window the count is incremented; at count ≥ 5
a 10s lockout is stored and `(True, 10)` returned, otherwise
`(True, int(2 - elapsed))`.  At ≥ 2s elapsed (or first contact) the entry
is reset to count 1 with no lockout and `(False, 0)` returned. -/
def checkSpam (st : SpamState) (now : Nat) : (Bool × Nat) × SpamState :=
  match st with
  | some info =>
    let diff := now - info.lastRequest
    if diff < 2000 then
      let rc := info.requestCount + 1
      let st₂ : SpamState := some
        { requestCount := rc, lastRequest := now,
          blockedUntil := if rc ≥ 5 then some (now + 10000) else none }
      if rc ≥ 5 then ((true, 10), st₂) else ((true, (2000 - diff) / 1000), st₂)
    else ((false, 0), some { requestCount := 1, lastRequest := now, blockedUntil := none })
  | none => ((false, 0), some { requestCount := 1, lastRequest := now, blockedUntil := none })

/-- Outcome of the rate-limit gate. -/
inductive RateOutcome
  | allowed
  | throttled (waitSeconds : Nat)
  | locked (remainingSeconds : Nat)
deriving DecidableEq, Repr

/-- The composition every non-admin entry point performs
(bot.py:507-530, 1141-1150, 1194-1203): `is_temp_blocked` first, then
`check_spam`.  `check_spam` returns wait 10 exactly when it just set the
lockout, which the handlers surface as the lockout message
(`wait_time >= 10`, bot.py:520). -/
def rateGate (st : SpamState) (now : Nat) : RateOutcome × SpamState :=
  let ((blocked, remaining), st₁) := isTempBlocked st now
  if blocked then (.locked remaining, st₁)
  else
    let ((isSpam, wait), st₂) := checkSpam st₁ now
    if isSpam then
      if wait ≥ 10 then (.locked wait, st₂) else (.throttled wait, st₂)
    else (.allowed, st₂)

/-- A sequence of requests by one user at the given times. -/
def rateGateTrace (st : SpamState) : List Nat → List RateOutcome × SpamState
  | [] => ([], st)
  | t :: rest =>
    let (o, st₁) := rateGate st t
    let (os, st₂) := rateGateTrace st₁ rest
    (o :: os, st₂)

/-! ### Content repository and delivery (`send_files_to_user`,
`schedule_message_deletion_and_send_buttons`, bot.py:286-310, 568-626) -/

/-- A media item's kind.  `handle_admin_media` (bot.py:643-666) only ever
stores `'photo'` or `'video'`, so bundles contain no other kinds. -/
inductive FileType
  | photo
  | video
deriving DecidableEq, Repr

/-- One entry of a bundle's `files` list. -/
structure FileDoc where
  fileType : FileType
  telegramFileId : Nat
deriving DecidableEq, Repr

/-- One value of `self.files`: a file group created at the end of the
upload wizard (bot.py:1474-1480). -/
structure FileGroup where
  files : List FileDoc
  caption : Option String
  deleteSeconds : Nat
  createdAt : Nat
  adminId : Nat
deriving DecidableEq, Repr

/-- `self.files`: access code → bundle, as an assoc list where the head
shadows the tail (dict assignment = prepend). -/
abbrev FilesStore := List (String × FileGroup)

/-- Dict lookup `self.files.get(code)`; `none` models NotFound. -/
def filesGet (fs : FilesStore) (code : String) : Option FileGroup :=
  match fs with
  | [] => none
  | (c, fg) :: rest => if c = code then some fg else filesGet rest code

/-- Dict assignment `self.files[code] = fg` (bot.py:1474). -/
def filesSet (fs : FilesStore) (code : String) (fg : FileGroup) : FilesStore :=
  (code, fg) :: fs

/-- Dict deletion `del self.files[code]` (bot.py:965). -/
def filesDel (fs : FilesStore) (code : String) : FilesStore :=
  fs.filter (fun p => p.1 != code)

/-- The transport used for `send_photo`/`send_video`, indexed by the
position of the item in the bundle; `Except.ok` carries the new message
id, `Except.error` models the call raising. -/
abbrev Transport := Nat → Except Unit Nat

/-- The per-item notice appended to every caption the loop builds:
`f"⏱️ این محتوا بعد از {delete_seconds} ثانیه پاک می‌شود!"` (bot.py:580-582). -/
def expiryNotice (deleteSeconds : Nat) : String :=
  "⏱️ این محتوا بعد از " ++ toString deleteSeconds ++ " ثانیه پاک می‌شود!"

/-- `caption_text = file_group.get('caption', '')` — a missing key or a
stored `None` both behave as falsy (bot.py:572, 579). -/
def captionText (fg : FileGroup) : String :=
  fg.caption.getD ""

/-- `full_caption` for item `idx` (bot.py:578-582). -/
def fullCaption (fg : FileGroup) (idx : Nat) : String :=
  if idx = 0 ∧ captionText fg ≠ "" then
    captionText fg ++ "\n\n" ++ expiryNotice fg.deleteSeconds
  else expiryNotice fg.deleteSeconds

/-- The caption argument actually passed to the transport:
`full_caption if idx == 0 or not caption_text else None` (bot.py:590, 596). -/
def sentCaption (fg : FileGroup) (idx : Nat) : Option String :=
  if idx = 0 ∨ captionText fg = "" then some (fullCaption fg idx) else none

/-- The send loop of `send_files_to_user` (bot.py:577-600).  Both the
photo and the video branch call the transport and collect the message id.
On a raised exception (`Except.error`) control jumps to the handler with
the ids and captions of the items already sent. -/
def sendLoop (send : Transport) (fg : FileGroup) :
    List FileDoc → Nat → List Nat → List (Option String) →
    Except (List Nat × List (Option String)) (List Nat × List (Option String))
  | [], _, ids, caps => .ok (ids, caps)
  | _fileDoc :: rest, idx, ids, caps =>
    match send idx with
    | .ok mid => sendLoop send fg rest (idx + 1) (ids ++ [mid]) (caps ++ [sentCaption fg idx])
    | .error _ => .error (ids, caps)

/-- Observable result of one `send_files_to_user` call (bot.py:568-626):
the ids and caption arguments of the messages actually dispatched, whether
the error message was sent, the scheduled deletion task
`(message_ids, delay_seconds, file_code)` if any, and how many download
records were appended. -/
structure DeliveryResult where
  sentIds : List Nat
  sentCaptions : List (Option String)
  errorReported : Bool
  scheduled : Option (List Nat × Nat × Option String)
  downloadsAppended : Nat
deriving DecidableEq, Repr

/-- `send_files_to_user(user_id, file_group, file_code)` (bot.py:568-626).
If the loop completes, deletion of all sent ids is scheduled when the list
is nonempty and exactly one download record is appended; if a send raises,
the `except` branch reports an error and neither schedules nor records. -/
def sendFilesToUser (send : Transport) (fg : FileGroup) (fileCode : String) :
    DeliveryResult :=
  match sendLoop send fg fg.files 0 [] [] with
  | .error (ids, caps) =>
    { sentIds := ids, sentCaptions := caps, errorReported := true,
      scheduled := none, downloadsAppended := 0 }
  | .ok (ids, caps) =>
    { sentIds := ids, sentCaptions := caps, errorReported := false,
      scheduled := if ids.isEmpty then none else some (ids, fg.deleteSeconds, some fileCode),
      downloadsAppended := 1 }

/-- An action of the scheduled deletion task. -/
inductive DelAction
  | del (msgId : Nat)
  | prompt (redownloadCode : Option String)
deriving DecidableEq, Repr

/-- `true` exactly on deletion attempts. -/
def isDeleteAction : Nat × DelAction → Bool
  | (_, .del _) => true
  | (_, .prompt _) => false

/-- `true` exactly on the re-download prompt. -/
def isPromptAction : Nat × DelAction → Bool
  | (_, .del _) => false
  | (_, .prompt _) => true

/-- The timed action trace of
`schedule_message_deletion_and_send_buttons` (bot.py:286-310): after
`asyncio.sleep(delay_seconds)` every sent message id gets one best-effort
deletion attempt (each in its own `try`), then a single prompt carrying
the re-download action for `file_code` is sent.  The timestamp is the
earliest instant the action can run, `delay_seconds` after dispatch. -/
def scheduleTrace (messageIds : List Nat) (delaySeconds : Nat)
    (fileCode : Option String) : List (Nat × DelAction) :=
  messageIds.map (fun m => (delaySeconds, DelAction.del m)) ++
    [(delaySeconds, DelAction.prompt fileCode)]

/-! ### Upload wizard: the delete-delay step (`handle_text`, bot.py:1455-1496) -/

/-- Numeric value of a decimal digit character. -/
def digitVal (c : Char) : Nat :=
  c.toNat - 48

/-- Decimal reading of a nonempty all-digit character list. -/
def pyDigits (l : List Char) : Option Nat :=
  if l ≠ [] ∧ l.all (fun c => c.isDigit) then
    some (l.foldl (fun a c => a * 10 + digitVal c) 0)
  else none

/-- Drop surrounding spaces, as Python `int` strips whitespace. -/
def stripSpaces (l : List Char) : List Char :=
  ((l.dropWhile (fun c => c = ' ')).reverse.dropWhile (fun c => c = ' ')).reverse

/-- Python `int(text)` on a decimal string: optional sign and digits after
stripping whitespace; `none` models the `ValueError` branch. -/
def pyInt (s : String) : Option Int :=
  match stripSpaces s.toList with
  | '-' :: rest => (pyDigits rest).map (fun n => -(n : Int))
  | '+' :: rest => (pyDigits rest).map (fun n => (n : Int))
  | l => (pyDigits l).map (fun n => (n : Int))

/-- The conversation fields of `context.user_data` that the delete-delay
step reads: the `'awaiting'` tag, the pending media list `'temp_files'`
and the pending `'caption'` (where `none` covers both a missing key and a
stored `None`). -/
structure ConvState where
  awaiting : Option String
  tempFiles : List FileDoc
  caption : Option String
deriving DecidableEq, Repr

/-- The cleared conversation (`context.user_data.clear()`). -/
def clearedConv : ConvState :=
  ⟨none, [], none⟩

/-- Reply of the delete-delay step. -/
inductive DeleteTimeReply
  | stateError
  | invalidNumber
  | outOfRange
  | created (code : String) (delaySeconds : Nat)
deriving DecidableEq, Repr

/-- The `awaiting == 'delete_time'` branch of `handle_text`
(bot.py:1455-1496).  `freshCode` is the value drawn by
`secrets.token_urlsafe(6)`, which the source stores unconditionally —
there is no collision check against existing keys.  Non-numeric or
out-of-range input returns with the conversation and store untouched. -/
def handleDeleteTime (st : ConvState) (fs : FilesStore) (text : String)
    (freshCode : String) (now adminId : Nat) :
    DeleteTimeReply × ConvState × FilesStore :=
  if st.tempFiles = [] then (.stateError, clearedConv, fs)
  else
    match pyInt text with
    | none => (.invalidNumber, st, fs)
    | some n =>
      if n < 5 ∨ n > 30 then (.outOfRange, st, fs)
      else
        let fg : FileGroup :=
          { files := st.tempFiles, caption := st.caption,
            deleteSeconds := n.toNat, createdAt := now, adminId := adminId }
        (.created freshCode n.toNat, clearedConv, filesSet fs freshCode fg)

/-- The `delfile_` branch of `button_callback` (bot.py:957-997): admins
only; returns the store after deletion and whether a bundle was removed. -/
def delFileCallback (isAdminUser : Bool) (fs : FilesStore) (code : String) :
    FilesStore × Bool :=
  if isAdminUser then
    if (filesGet fs code).isSome then (filesDel fs code, true) else (fs, false)
  else (fs, false)

/-! ### Dispatch handlers (`start_command`, `handle_file_access`,
`button_callback`, bot.py:439-566, 1137-1262) -/

/-- The per-user record of `self.users`, restricted to the blocked flag
the gating claims are about. -/
structure UserRec where
  isBlocked : Bool
deriving DecidableEq, Repr

/-- The bot state the access handlers read and write: whether the caller
is an admin, the caller's `spam_control` entry, the bundle store, the
mandatory channels and the caller's membership cache.  The `self.users`
record is passed separately to `startCommand`: the `redownload_` and
`check_` callback handlers never read it. -/
structure BotState where
  isAdminUser : Bool
  spam : SpamState
  files : FilesStore
  channels : List Channel
  memCache : MemCache
deriving Repr

/-- User-visible outcome of one access interaction. -/
inductive AccessOutcome
  | refusedBlocked
  | rateLimited (o : RateOutcome)
  | linkNotFound
  | joinPrompt (channels : List Channel) (code : String)
  | notJoinedAlert (channels : List Channel)
  | delivered (code : String) (r : DeliveryResult)
  | menuShown
deriving DecidableEq, Repr

/-- The spam gate every handler runs for non-admin callers
(`is_temp_blocked` then `check_spam`); admins skip it entirely. -/
def gateNonAdmin (isAdminUser : Bool) (sp : SpamState) (now : Nat) :
    Option RateOutcome × SpamState :=
  if isAdminUser then (none, sp)
  else
    match rateGate sp now with
    | (.allowed, sp₁) => (none, sp₁)
    | (o, sp₁) => (some o, sp₁)

/-- `handle_file_access` (bot.py:502-566): spam gate, existence check,
membership check, then delivery. -/
def handleFileAccess (gw : Gateway) (send : Transport) (userId now : Nat)
    (st : BotState) (code : String) : AccessOutcome × BotState :=
  match gateNonAdmin st.isAdminUser st.spam now with
  | (some o, sp₁) => (.rateLimited o, { st with spam := sp₁ })
  | (none, sp₁) =>
    let st₁ := { st with spam := sp₁ }
    match filesGet st₁.files code with
    | none => (.linkNotFound, st₁)
    | some fg =>
      let m := checkMembership gw userId st₁.channels st₁.memCache
      let st₂ := { st₁ with memCache := m.cache }
      if m.isMember then (.delivered code (sendFilesToUser send fg code), st₂)
      else (.joinPrompt m.notJoined code, st₂)

/-- `start_command` (bot.py:439-500).  A user whose stored record has the
blocked flag is refused before anything else; otherwise the record is
upserted with `is_blocked = False` and, when an access code argument is
present, control passes to `handle_file_access`. -/
def startCommand (gw : Gateway) (send : Transport) (userId now : Nat)
    (userRec : Option UserRec) (st : BotState) (arg : Option String) :
    AccessOutcome × Option UserRec × BotState :=
  match userRec with
  | some u =>
    if u.isBlocked then (.refusedBlocked, userRec, st)
    else
      match arg with
      | some code =>
        let (o, st₁) := handleFileAccess gw send userId now st code
        (o, some ⟨false⟩, st₁)
      | none => (.menuShown, some ⟨false⟩, st)
  | none =>
    match arg with
    | some code =>
      let (o, st₁) := handleFileAccess gw send userId now st code
      (o, some ⟨false⟩, st₁)
    | none => (.menuShown, some ⟨false⟩, st)

/-- The `redownload_` branch of `button_callback` (bot.py:1137-1188):
spam gate, membership check, existence check, then delivery.  The
blocked flag of `self.users` is never consulted. -/
def redownloadCallback (gw : Gateway) (send : Transport) (userId now : Nat)
    (st : BotState) (code : String) : AccessOutcome × BotState :=
  match gateNonAdmin st.isAdminUser st.spam now with
  | (some o, sp₁) => (.rateLimited o, { st with spam := sp₁ })
  | (none, sp₁) =>
    let st₁ := { st with spam := sp₁ }
    let m := checkMembership gw userId st₁.channels st₁.memCache
    let st₂ := { st₁ with memCache := m.cache }
    if m.isMember then
      match filesGet st₂.files code with
      | none => (.linkNotFound, st₂)
      | some fg => (.delivered code (sendFilesToUser send fg code), st₂)
    else (.joinPrompt m.notJoined code, st₂)

/-- The `check_` branch of `button_callback` (bot.py:1190-1262): after the
spam gate and membership check, the unmet requirements are split into
auto-verify failures and trust-based channels; every trust-based one is
immediately marked joined via `mark_user_joined_channel` (the per-channel
key `str(chat_id or identifier)` coincides with the `mandatory_channels`
dict key, bot.py:1548).  Auto-verify failures then abort with an alert —
without rolling the trust markings back; otherwise delivery proceeds.
The blocked flag of `self.users` is never consulted. -/
def checkCallback (gw : Gateway) (send : Transport) (userId now : Nat)
    (st : BotState) (code : String) : AccessOutcome × BotState :=
  match gateNonAdmin st.isAdminUser st.spam now with
  | (some o, sp₁) => (.rateLimited o, { st with spam := sp₁ })
  | (none, sp₁) =>
    let st₁ := { st with spam := sp₁ }
    let m := checkMembership gw userId st₁.channels st₁.memCache
    if m.notJoined ≠ [] then
      let autoFailed := m.notJoined.filter (fun c => c.canAutoVerify)
      let trustBased := m.notJoined.filter (fun c => !c.canAutoVerify)
      let cache₂ := trustBased.foldl (fun c ch => markUserJoinedChannel c ch.key) m.cache
      let st₂ := { st₁ with memCache := cache₂ }
      if autoFailed ≠ [] then (.notJoinedAlert autoFailed, st₂)
      else
        match filesGet st₂.files code with
        | none => (.linkNotFound, st₂)
        | some fg => (.delivered code (sendFilesToUser send fg code), st₂)
    else
      let st₂ := { st₁ with memCache := m.cache }
      match filesGet st₂.files code with
      | none => (.linkNotFound, st₂)
      | some fg => (.delivered code (sendFilesToUser send fg code), st₂)

/-- Value carried by a successful transport call (defaulting to 0 on the
error constructor; only read where success is established). -/
def okValue : Except Unit Nat → Nat
  | .ok m => m
  | .error _ => 0

/-! ## Helper lemmas -/

theorem cacheGet_set_self (c : MemCache) (k : String) (b : Bool) :
    cacheGet (cacheSet c k b) k = b := by
  simp [cacheSet, cacheGet]

theorem cacheGet_set_ne (c : MemCache) (k₀ k : String) (b : Bool) (h : k₀ ≠ k) :
    cacheGet (cacheSet c k₀ b) k = cacheGet c k := by
  simp [cacheSet, cacheGet, h]

theorem filesGet_set_self (fs : FilesStore) (code : String) (fg : FileGroup) :
    filesGet (filesSet fs code fg) code = some fg := by
  simp [filesSet, filesGet]

theorem filesGet_set_ne (fs : FilesStore) (code c : String) (fg : FileGroup)
    (h : c ≠ code) : filesGet (filesSet fs code fg) c = filesGet fs c := by
  have hx : code ≠ c := fun hx => h hx.symm
  simp [filesSet, filesGet, hx]

theorem filesGet_del_self (fs : FilesStore) (code : String) :
    filesGet (filesDel fs code) code = none := by
  induction fs with
  | nil => rfl
  | cons p rest ih =>
    unfold filesDel at ih ⊢
    by_cases hp : p.1 = code
    · simp only [List.filter_cons, hp, bne_self_eq_false, if_false]
      exact ih
    · simp only [List.filter_cons, bne_iff_ne, ne_eq, hp, not_false_eq_true, if_true]
      simp only [filesGet, hp, if_false]
      exact ih

/-- A deleted bundle stays reachable for no code: `delfile_` followed by a
lookup of the same code yields `none` (NotFound). -/
theorem delFileCallback_get_none (fs : FilesStore) (code : String) :
    filesGet (delFileCallback true fs code).1 code = none := by
  unfold delFileCallback
  cases h : filesGet fs code with
  | none => simp [h]
  | some fg => simp [h, filesGet_del_self]

theorem range_map_shift {α : Type} (g : Nat → α) (idx n : Nat) :
    (List.range (n + 1)).map (fun i => g (idx + i)) =
      g idx :: (List.range n).map (fun i => g (idx + 1 + i)) := by
  rw [List.range_succ_eq_map, List.map_cons, List.map_map]
  have harg : ((fun i => g (idx + i)) ∘ Nat.succ) = (fun i => g (idx + 1 + i)) := by
    funext i
    simp only [Function.comp]
    congr 1
    omega
  rw [harg]
  simp

/-- When every send from `idx` on succeeds, the loop completes and
collects exactly the transport's message ids and the per-index caption
arguments, in index order. -/
theorem sendLoop_ok_eq (send : Transport) (fg : FileGroup) (l : List FileDoc) :
    ∀ (idx : Nat) (ids : List Nat) (caps : List (Option String)),
      (∀ i, i < l.length → ∃ m, send (idx + i) = Except.ok m) →
      sendLoop send fg l idx ids caps =
        Except.ok
          (ids ++ (List.range l.length).map (fun i => okValue (send (idx + i))),
           caps ++ (List.range l.length).map (fun i => sentCaption fg (idx + i))) := by
  induction l with
  | nil =>
    intro idx ids caps _
    simp [sendLoop]
  | cons f rest ih =>
    intro idx ids caps h
    obtain ⟨m, hm⟩ := h 0 (by simp)
    rw [Nat.add_zero] at hm
    have hrest : ∀ i, i < rest.length → ∃ m₂, send (idx + 1 + i) = Except.ok m₂ := by
      intro i hi
      obtain ⟨m₂, hm₂⟩ := h (i + 1) (by simpa using Nat.succ_lt_succ hi)
      exact ⟨m₂, by rw [← hm₂]; congr 1; omega⟩
    have hstep := ih (idx + 1) (ids ++ [m]) (caps ++ [sentCaption fg idx]) hrest
    simp only [sendLoop, hm, hstep, List.length_cons]
    rw [range_map_shift (fun i => okValue (send i)) idx rest.length,
      range_map_shift (fun i => sentCaption fg i) idx rest.length]
    simp [hm, okValue]

/-- The loop only reports success with one collected id per item. -/
theorem sendLoop_ok_length (send : Transport) (fg : FileGroup) (l : List FileDoc) :
    ∀ (idx : Nat) (ids : List Nat) (caps : List (Option String)) ids₂ caps₂,
      sendLoop send fg l idx ids caps = Except.ok (ids₂, caps₂) →
      ids₂.length = ids.length + l.length := by
  induction l with
  | nil =>
    intro idx ids caps ids₂ caps₂ h
    simp only [sendLoop, Except.ok.injEq, Prod.mk.injEq] at h
    simp [← h.1]
  | cons f rest ih =>
    intro idx ids caps ids₂ caps₂ h
    simp only [sendLoop] at h
    cases hs : send idx with
    | ok m =>
      rw [hs] at h
      have := ih (idx + 1) (ids ++ [m]) (caps ++ [sentCaption fg idx]) ids₂ caps₂ h
      simp at this ⊢
      omega
    | error e =>
      rw [hs] at h
      simp at h

/-- `send_files_to_user` under a fully successful transport: ids and
captions in index order, no error, deletion scheduled for all ids when
any item exists, exactly one download record. -/
theorem sendFilesToUser_ok (send : Transport) (fg : FileGroup) (code : String)
    (h : ∀ i, i < fg.files.length → ∃ m, send i = Except.ok m) :
    sendFilesToUser send fg code =
      { sentIds := (List.range fg.files.length).map (fun i => okValue (send i)),
        sentCaptions := (List.range fg.files.length).map (fun i => sentCaption fg i),
        errorReported := false,
        scheduled :=
          if fg.files.length = 0 then none
          else some ((List.range fg.files.length).map (fun i => okValue (send i)),
            fg.deleteSeconds, some code),
        downloadsAppended := 1 } := by
  have h0 : ∀ i, i < fg.files.length → ∃ m, send (0 + i) = Except.ok m := by
    simpa using h
  unfold sendFilesToUser
  rw [sendLoop_ok_eq send fg fg.files 0 [] [] h0]
  simp only [List.nil_append, Nat.zero_add]
  by_cases hn : fg.files.length = 0
  · simp [hn]
  · simp only [hn, if_false]
    have hne : ¬ ((List.range fg.files.length).map
        (fun i => okValue (send i))).isEmpty = true := by
      simp [List.isEmpty_iff, List.range_eq_nil, hn]
    simp [hne]

theorem scheduleTrace_cons (a : Nat) (ids : List Nat) (d : Nat) (c : Option String) :
    scheduleTrace (a :: ids) d c = (d, DelAction.del a) :: scheduleTrace ids d c := by
  simp [scheduleTrace]

/-- One deletion attempt per sent message id. -/
theorem scheduleTrace_delete_count (ids : List Nat) (d : Nat) (c : Option String) :
    List.countP isDeleteAction (scheduleTrace ids d c) = ids.length := by
  induction ids with
  | nil => rfl
  | cons a l ih => simp [scheduleTrace_cons, List.countP_cons, isDeleteAction, ih]

/-- Exactly one re-download prompt per scheduled task. -/
theorem scheduleTrace_prompt_count (ids : List Nat) (d : Nat) (c : Option String) :
    List.countP isPromptAction (scheduleTrace ids d c) = 1 := by
  induction ids with
  | nil => rfl
  | cons a l ih => simp [scheduleTrace_cons, List.countP_cons, isPromptAction, ih]

/-- Every action of the task runs at the sleep deadline at the earliest. -/
theorem scheduleTrace_times (ids : List Nat) (d : Nat) (c : Option String) :
    ∀ p ∈ scheduleTrace ids d c, p.1 = d := by
  intro p hp
  simp only [scheduleTrace, List.mem_append, List.mem_map, List.mem_singleton] at hp
  rcases hp with ⟨m, _, rfl⟩ | rfl <;> rfl

/-- `checkChannel` only ever writes its own channel's key. -/
theorem checkChannel_cache_other (gw : Gateway) (userId : Nat) (cache : MemCache)
    (ch : Channel) (k : String) (hk : k ≠ ch.key) :
    cacheGet (checkChannel gw userId cache ch).cache k = cacheGet cache k := by
  have hne : ch.key ≠ k := fun h => hk h.symm
  unfold checkChannel
  repeat' split
  all_goals simp [cacheGet_set_ne _ _ _ _ hne]

/-- Folding the trust-marking over a channel list sets every listed key
(and preserves keys already set). -/
theorem cacheGet_foldl_mark (l : List Channel) (c : MemCache) (k : String)
    (h : k ∈ l.map Channel.key ∨ cacheGet c k = true) :
    cacheGet (l.foldl (fun acc ch => markUserJoinedChannel acc ch.key) c) k = true := by
  induction l generalizing c with
  | nil =>
    rcases h with h | h
    · simp at h
    · simpa using h
  | cons ch rest ih =>
    simp only [List.foldl_cons]
    apply ih
    by_cases hk : ch.key = k
    · right
      simp only [markUserJoinedChannel, hk]
      exact cacheGet_set_self c k true
    · rcases h with h | h
      · simp only [List.map_cons, List.mem_cons] at h
        rcases h with h | h
        · exact absurd h.symm hk
        · exact Or.inl h
      · right
        simp only [markUserJoinedChannel]
        rw [cacheGet_set_ne c ch.key k true hk]
        exact h

/-- With no verified cache entry, a gateway failure on an auto-mode
channel flags it as not joined (the fresh-check `except` branch). -/
theorem checkChannel_error_fresh (gw : Gateway) (userId : Nat) (cache : MemCache)
    (ch : Channel) (cid : Int) (hauto : ch.canAutoVerify = true)
    (hcid : ch.chatId = some cid) (herr : gw cid userId = Except.error ())
    (hcache : cacheGet cache ch.key = false) :
    checkChannel gw userId cache ch = ⟨true, cache, [cid]⟩ := by
  simp [checkChannel, hcache, hcid, hauto, herr]

/-- A channel that satisfies `checkChannel_error_fresh` throughout the
evaluation ends up in the `not_joined` list of `check_membership`,
provided channel keys are unique (they are dict keys in the source). -/
theorem mem_notJoined_of_gateway_error (gw : Gateway) (userId : Nat)
    (channels : List Channel) (cache : MemCache) (ch : Channel) (cid : Int)
    (hmem : ch ∈ channels) (hnodup : (channels.map Channel.key).Nodup)
    (hauto : ch.canAutoVerify = true) (hcid : ch.chatId = some cid)
    (herr : gw cid userId = Except.error ())
    (hcache : cacheGet cache ch.key = false) :
    ch ∈ (checkMembership gw userId channels cache).notJoined := by
  induction channels generalizing cache with
  | nil => cases hmem
  | cons hd rest ih =>
    rcases hr : checkMembershipAux gw userId rest (checkChannel gw userId cache hd).cache
      with ⟨nj, cache₂, calls⟩
    have hnj : (checkMembership gw userId (hd :: rest) cache).notJoined =
        (if (checkChannel gw userId cache hd).notJoined then [hd] else []) ++ nj := by
      simp [checkMembership, checkMembershipAux, hr]
    rcases List.mem_cons.mp hmem with hEq | hRest
    · subst hEq
      rw [hnj, checkChannel_error_fresh gw userId cache ch cid hauto hcid herr hcache]
      simp
    · have hkey : ch.key ≠ hd.key := by
        intro hk
        have h₁ : hd.key ∉ rest.map Channel.key := (List.nodup_cons.mp hnodup).1
        exact h₁ (hk ▸ List.mem_map.mpr ⟨ch, hRest, rfl⟩)
      have hcache₂ : cacheGet (checkChannel gw userId cache hd).cache ch.key = false := by
        rw [checkChannel_cache_other gw userId cache hd ch.key hkey]
        exact hcache
      have := ih ((checkChannel gw userId cache hd).cache) hRest
        (List.nodup_cons.mp hnodup).2 hcache₂
      rw [hnj]
      refine List.mem_append.mpr (Or.inr ?_)
      have hthis : (checkMembership gw userId rest
          (checkChannel gw userId cache hd).cache).notJoined = nj := by
        simp [checkMembership, hr]
      rwa [hthis] at this

/-!
## C2 — membership fail-closed

The claim states that a gateway error during an auto-mode check makes the
evaluation report the requirement unmet *regardless of the prior cache
state*.  The source's cached-recheck branch (bot.py:223-224) swallows the
exception and leaves the cached `True` in place, so with a verified cache
entry the requirement stays satisfied.
-/

/-- C2 (counterexample): with a verified cache entry for channel key
`"k1"` and a gateway that always raises, the evaluation performs the
recheck call (chat id 5 is queried) yet still reports the user a member
with no unmet requirement. -/
theorem gateway_error_cached_satisfied :
    (checkMembership (fun _ _ => Except.error ()) 7
        [⟨"k1", some 5, true, "btn"⟩] [("k1", true)]).calls = [5] ∧
    (checkMembership (fun _ _ => Except.error ()) 7
        [⟨"k1", some 5, true, "btn"⟩] [("k1", true)]).isMember = true ∧
    (checkMembership (fun _ _ => Except.error ()) 7
        [⟨"k1", some 5, true, "btn"⟩] [("k1", true)]).notJoined = [] :=
  ⟨rfl, rfl, rfl⟩

/-- C2 (amended): a gateway error for an auto-mode requirement is
fail-closed only when the per-(user, requirement) cache entry is not
already verified: then the requirement lands in `not_joined`.  When the
entry is verified, the failed recheck is swallowed and the requirement
stays satisfied with the cache untouched. -/
theorem membership_fail_closed_amended (gw : Gateway) (userId : Nat)
    (channels : List Channel) (cache : MemCache) (ch : Channel) (cid : Int)
    (hmem : ch ∈ channels) (hnodup : (channels.map Channel.key).Nodup)
    (hauto : ch.canAutoVerify = true) (hcid : ch.chatId = some cid)
    (herr : gw cid userId = Except.error ()) :
    (cacheGet cache ch.key = false →
      ch ∈ (checkMembership gw userId channels cache).notJoined) ∧
    (cacheGet cache ch.key = true →
      checkChannel gw userId cache ch = ⟨false, cache, [cid]⟩) := by
  constructor
  · intro hcache
    exact mem_notJoined_of_gateway_error gw userId channels cache ch cid
      hmem hnodup hauto hcid herr hcache
  · intro hcache
    simp [checkChannel, hcache, hcid, hauto, herr]

/-- C2 (witness): the amended theorem applied at a concrete channel with
an empty cache and an always-raising gateway. -/
theorem membership_fail_closed_amended_witness :
    (cacheGet [] "k1" = false →
      (⟨"k1", some 5, true, "btn"⟩ : Channel) ∈
        (checkMembership (fun _ _ => Except.error ()) 7
          [⟨"k1", some 5, true, "btn"⟩] []).notJoined) ∧
    (cacheGet [] "k1" = true →
      checkChannel (fun _ _ => Except.error ()) 7 [] ⟨"k1", some 5, true, "btn"⟩ =
        ⟨false, [], [5]⟩) :=
  membership_fail_closed_amended (fun _ _ => Except.error ()) 7
    [⟨"k1", some 5, true, "btn"⟩] [] ⟨"k1", some 5, true, "btn"⟩ 5
    (by simp) (by simp) rfl rfl rfl

/-!
## C9 — trust-mode optimism
-/

/-- C9: marking a trust-mode requirement joined sets its cache entry, and
once that entry is `true` every subsequent `check_membership` evaluation
treats the requirement as satisfied without any gateway query: processing
it flags nothing, performs no call, leaves the cache unchanged, and the
whole evaluation equals the evaluation without that requirement. -/
theorem trust_mode_optimism (gw : Gateway) (userId : Nat) (cache : MemCache)
    (ch : Channel) (rest : List Channel) (htrust : ch.canAutoVerify = false)
    (hcache : cacheGet cache ch.key = true) :
    cacheGet (markUserJoinedChannel cache ch.key) ch.key = true ∧
    checkChannel gw userId cache ch = ⟨false, cache, []⟩ ∧
    checkMembership gw userId (ch :: rest) cache = checkMembership gw userId rest cache := by
  have hch : checkChannel gw userId cache ch = ⟨false, cache, []⟩ := by
    cases hcid : ch.chatId <;> simp [checkChannel, hcache, htrust, hcid]
  refine ⟨by simp [markUserJoinedChannel, cacheGet_set_self], hch, ?_⟩
  rcases hr : checkMembershipAux gw userId rest cache with ⟨nj, cache₂, calls⟩
  simp [checkMembership, checkMembershipAux, hch, hr]

/-- C9 (witness): a concrete trust-mode channel with a cached assertion is
invisible to the evaluation even under an always-raising gateway. -/
theorem trust_mode_optimism_witness :
    cacheGet (markUserJoinedChannel [("T", true)] "T") "T" = true ∧
    checkChannel (fun _ _ => Except.error ()) 7 [("T", true)]
        ⟨"T", none, false, "bT"⟩ = ⟨false, [("T", true)], []⟩ ∧
    checkMembership (fun _ _ => Except.error ()) 7
        [⟨"T", none, false, "bT"⟩] [("T", true)] =
      checkMembership (fun _ _ => Except.error ()) 7 [] [("T", true)] :=
  trust_mode_optimism (fun _ _ => Except.error ()) 7 [("T", true)]
    ⟨"T", none, false, "bT"⟩ [] rfl rfl

/-!
## C8 — upload wizard delete-delay boundary
-/

/-- C8: in the delete-delay step with pending media, inputs "5" and "30"
are accepted — a bundle with that delay is created and the conversation
cleared — while "4", "31" and the non-numeric "abc" are rejected with a
validation reply and the conversation (tag, pending media, caption) and
the bundle store are left exactly as they were. -/
theorem delete_delay_validation (st : ConvState) (fs : FilesStore)
    (freshCode : String) (now adminId : Nat)
    (_hstep : st.awaiting = some "delete_time") (hne : st.tempFiles ≠ []) :
    handleDeleteTime st fs "5" freshCode now adminId =
      (.created freshCode 5, clearedConv,
        filesSet fs freshCode ⟨st.tempFiles, st.caption, 5, now, adminId⟩) ∧
    handleDeleteTime st fs "30" freshCode now adminId =
      (.created freshCode 30, clearedConv,
        filesSet fs freshCode ⟨st.tempFiles, st.caption, 30, now, adminId⟩) ∧
    handleDeleteTime st fs "4" freshCode now adminId = (.outOfRange, st, fs) ∧
    handleDeleteTime st fs "31" freshCode now adminId = (.outOfRange, st, fs) ∧
    handleDeleteTime st fs "abc" freshCode now adminId = (.invalidNumber, st, fs) := by
  have h5 : pyInt "5" = some 5 := rfl
  have h30 : pyInt "30" = some 30 := rfl
  have h4 : pyInt "4" = some 4 := rfl
  have h31 : pyInt "31" = some 31 := rfl
  have habc : pyInt "abc" = none := rfl
  refine ⟨?_, ?_, ?_, ?_, ?_⟩ <;>
    simp [handleDeleteTime, hne, h5, h30, h4, h31, habc]

/-- C8 (witness): the theorem applied at a concrete conversation holding
one pending photo and a caption; the non-numeric input leaves everything
unchanged. -/
theorem delete_delay_validation_witness :
    handleDeleteTime ⟨some "delete_time", [⟨.photo, 3⟩], some "cap"⟩ [] "abc" "code1" 0 1 =
      (.invalidNumber, ⟨some "delete_time", [⟨.photo, 3⟩], some "cap"⟩, []) :=
  (delete_delay_validation ⟨some "delete_time", [⟨.photo, 3⟩], some "cap"⟩ [] "code1" 0 1
    rfl (by simp)).2.2.2.2

/-!
## C3 — access-code uniqueness

The spec demands a collision check with re-roll; the source
(bot.py:1470-1474) stores the freshly drawn `secrets.token_urlsafe(6)`
value — modelled by the `freshCode` input — without consulting the
existing keys.
-/

/-- C3 (counterexample): with an existing live bundle under code "abc", a
draw equal to "abc" is returned as the access code of the new bundle and
the previously reachable bundle is replaced — creation does overwrite. -/
theorem code_collision_overwrites :
    (handleDeleteTime ⟨some "delete_time", [⟨.photo, 3⟩], none⟩
        [("abc", ⟨[⟨.video, 9⟩], none, 20, 0, 1⟩)] "10" "abc" 5 2).1 =
      .created "abc" 10 ∧
    filesGet [("abc", ⟨[⟨.video, 9⟩], none, 20, 0, 1⟩)] "abc" =
      some ⟨[⟨.video, 9⟩], none, 20, 0, 1⟩ ∧
    filesGet (handleDeleteTime ⟨some "delete_time", [⟨.photo, 3⟩], none⟩
        [("abc", ⟨[⟨.video, 9⟩], none, 20, 0, 1⟩)] "10" "abc" 5 2).2.2 "abc" ≠
      some ⟨[⟨.video, 9⟩], none, 20, 0, 1⟩ := by
  refine ⟨rfl, rfl, ?_⟩
  decide

/-- C3 (amended): creation stores the bundle under the drawn code with no
collision check; when the draw differs from every live code the new
bundle is reachable under it, every other code still resolves as before,
and `get` on a deleted code returns `NotFound`. -/
theorem code_uniqueness_amended (st : ConvState) (fs : FilesStore)
    (text freshCode : String) (now adminId : Nat) (n : Int)
    (hne : st.tempFiles ≠ []) (hparse : pyInt text = some n)
    (h5 : 5 ≤ n) (h30 : n ≤ 30) (_hfresh : filesGet fs freshCode = none) :
    (handleDeleteTime st fs text freshCode now adminId).1 =
      .created freshCode n.toNat ∧
    filesGet (handleDeleteTime st fs text freshCode now adminId).2.2 freshCode =
      some ⟨st.tempFiles, st.caption, n.toNat, now, adminId⟩ ∧
    (∀ c, c ≠ freshCode →
      filesGet (handleDeleteTime st fs text freshCode now adminId).2.2 c =
        filesGet fs c) ∧
    (∀ code, filesGet (delFileCallback true fs code).1 code = none) := by
  have hcond : ¬ (n < 5 ∨ n > 30) := by omega
  refine ⟨?_, ?_, ?_, fun code => delFileCallback_get_none fs code⟩
  · simp [handleDeleteTime, hne, hparse, hcond]
  · simp [handleDeleteTime, hne, hparse, hcond, filesGet_set_self]
  · intro c hc
    simp only [handleDeleteTime, hne, hparse, hcond, if_false]
    simp [hne, filesGet_set_ne fs freshCode c _ hc]

/-- C3 (witness): a fresh draw "zzz" against a store holding "abc" makes
the new bundle reachable under "zzz". -/
theorem code_uniqueness_amended_witness :
    filesGet (handleDeleteTime ⟨some "delete_time", [⟨.photo, 3⟩], none⟩
        [("abc", ⟨[⟨.video, 9⟩], none, 20, 0, 1⟩)] "10" "zzz" 5 2).2.2 "zzz" =
      some ⟨[⟨.photo, 3⟩], none, 10, 5, 2⟩ :=
  (code_uniqueness_amended ⟨some "delete_time", [⟨.photo, 3⟩], none⟩
    [("abc", ⟨[⟨.video, 9⟩], none, 20, 0, 1⟩)] "10" "zzz" 5 2 10
    (by simp) rfl (by norm_num) (by norm_num) (by decide)).2.1

/-!
## C4 — delivery error handling

The claim's second half fails: the `try` of `send_files_to_user` wraps
the whole loop, so a transport exception on a later item jumps to the
`except` branch with earlier messages already sent, and no deletion is
scheduled for them.
-/

/-- C4 (counterexample): a two-item bundle whose first send succeeds
(message id 100) and whose second send raises — one media item was sent,
yet no deletion is scheduled (and the error path also appends no
download record). -/
theorem partial_send_failure_no_deletion :
    (sendFilesToUser (fun i => if i = 0 then Except.ok 100 else Except.error ())
        ⟨[⟨.photo, 1⟩, ⟨.photo, 2⟩], none, 7, 0, 1⟩ "c").sentIds = [100] ∧
    (sendFilesToUser (fun i => if i = 0 then Except.ok 100 else Except.error ())
        ⟨[⟨.photo, 1⟩, ⟨.photo, 2⟩], none, 7, 0, 1⟩ "c").errorReported = true ∧
    (sendFilesToUser (fun i => if i = 0 then Except.ok 100 else Except.error ())
        ⟨[⟨.photo, 1⟩, ⟨.photo, 2⟩], none, 7, 0, 1⟩ "c").scheduled = none ∧
    (sendFilesToUser (fun i => if i = 0 then Except.ok 100 else Except.error ())
        ⟨[⟨.photo, 1⟩, ⟨.photo, 2⟩], none, 7, 0, 1⟩ "c").downloadsAppended = 0 :=
  ⟨rfl, rfl, rfl, rfl⟩

/-- C4 (amended): for a nonempty bundle, if no media item was sent then
an error was reported and no deletion scheduled; and whenever the loop
completed without an exception, at least one item was sent and a deletion
of every sent message id is scheduled after the bundle's delay — but a
raise after earlier successes reports an error and schedules nothing for
the already-sent ids. -/
theorem delivery_error_handling_amended (send : Transport) (fg : FileGroup)
    (code : String) (hne : fg.files ≠ []) :
    ((sendFilesToUser send fg code).sentIds = [] →
      (sendFilesToUser send fg code).errorReported = true ∧
      (sendFilesToUser send fg code).scheduled = none) ∧
    ((sendFilesToUser send fg code).errorReported = false →
      (sendFilesToUser send fg code).sentIds ≠ [] ∧
      (sendFilesToUser send fg code).scheduled =
        some ((sendFilesToUser send fg code).sentIds, fg.deleteSeconds, some code)) := by
  have hlen : fg.files.length ≠ 0 := by
    simpa [List.length_eq_zero] using hne
  unfold sendFilesToUser
  cases hsl : sendLoop send fg fg.files 0 [] [] with
  | error p =>
    rcases p with ⟨ids, caps⟩
    exact ⟨fun _ => ⟨rfl, rfl⟩, fun hfalse => by simp at hfalse⟩
  | ok p =>
    rcases p with ⟨ids, caps⟩
    have hids : ids.length = 0 + fg.files.length :=
      sendLoop_ok_length send fg fg.files 0 [] [] ids caps (by simpa using hsl)
    have hidsne : ids ≠ [] := by
      intro hnil
      rw [hnil] at hids
      simp at hids
      exact hlen hids.symm
    have hempty : ids.isEmpty = false := by
      simpa [List.isEmpty_iff] using hidsne
    constructor
    · intro hzero
      simp at hzero
      exact absurd hzero hidsne
    · intro _
      refine ⟨hidsne, ?_⟩
      simp [hempty]

/-- C4 (witness): the amended theorem at a one-photo bundle under a
successful transport — the loop completed, so something was sent and the
deletion of every sent id is scheduled. -/
theorem delivery_error_handling_amended_witness :
    (sendFilesToUser (fun i => Except.ok (400 + i))
        ⟨[⟨.photo, 1⟩], none, 5, 0, 1⟩ "q").sentIds ≠ [] ∧
    (sendFilesToUser (fun i => Except.ok (400 + i))
        ⟨[⟨.photo, 1⟩], none, 5, 0, 1⟩ "q").scheduled =
      some ((sendFilesToUser (fun i => Except.ok (400 + i))
        ⟨[⟨.photo, 1⟩], none, 5, 0, 1⟩ "q").sentIds, 5, some "q") :=
  (delivery_error_handling_amended (fun i => Except.ok (400 + i))
    ⟨[⟨.photo, 1⟩], none, 5, 0, 1⟩ "q" (by simp)).2 rfl

/-!
## C5 — ephemeral delivery shape
-/

/-- C5: for a bundle with delay 5 and 3 media items all successfully
sent, the scheduled task deletes exactly the 3 sent message ids (3
deletion attempts, none timed before 5 seconds after dispatch), followed
by exactly one re-download prompt bound to the bundle's code, and the
delivery call appends exactly one download record. -/
theorem ephemeral_delivery_three_items (send : Transport) (fg : FileGroup)
    (code : String) (hdelay : fg.deleteSeconds = 5) (hlen : fg.files.length = 3)
    (hok : ∀ i, i < fg.files.length → ∃ m, send i = Except.ok m) :
    (sendFilesToUser send fg code).sentIds.length = 3 ∧
    (sendFilesToUser send fg code).scheduled =
      some ((sendFilesToUser send fg code).sentIds, 5, some code) ∧
    (sendFilesToUser send fg code).downloadsAppended = 1 ∧
    List.countP isDeleteAction
      (scheduleTrace (sendFilesToUser send fg code).sentIds 5 (some code)) = 3 ∧
    List.countP isPromptAction
      (scheduleTrace (sendFilesToUser send fg code).sentIds 5 (some code)) = 1 ∧
    (∀ p ∈ scheduleTrace (sendFilesToUser send fg code).sentIds 5 (some code),
      5 ≤ p.1) ∧
    scheduleTrace (sendFilesToUser send fg code).sentIds 5 (some code) =
      ((sendFilesToUser send fg code).sentIds.map fun m => (5, DelAction.del m)) ++
        [(5, DelAction.prompt (some code))] := by
  rw [sendFilesToUser_ok send fg code hok]
  refine ⟨by simp [hlen], by simp [hlen, hdelay], rfl, ?_, ?_, ?_, rfl⟩
  · rw [scheduleTrace_delete_count]
    simp [hlen]
  · rw [scheduleTrace_prompt_count]
  · intro p hp
    exact le_of_eq (scheduleTrace_times _ 5 (some code) p hp).symm

/-- C5 (witness): a concrete three-photo bundle with delay 5 under a
fully successful transport. -/
theorem ephemeral_delivery_three_items_witness :
    (sendFilesToUser (fun i => Except.ok (100 + i))
        ⟨[⟨.photo, 1⟩, ⟨.photo, 2⟩, ⟨.photo, 3⟩], none, 5, 0, 1⟩ "k").downloadsAppended = 1 ∧
    List.countP isDeleteAction
      (scheduleTrace (sendFilesToUser (fun i => Except.ok (100 + i))
          ⟨[⟨.photo, 1⟩, ⟨.photo, 2⟩, ⟨.photo, 3⟩], none, 5, 0, 1⟩ "k").sentIds
        5 (some "k")) = 3 := by
  have h := ephemeral_delivery_three_items (fun i => Except.ok (100 + i))
    ⟨[⟨.photo, 1⟩, ⟨.photo, 2⟩, ⟨.photo, 3⟩], none, 5, 0, 1⟩ "k" rfl rfl
    (fun i _ => ⟨100 + i, rfl⟩)
  exact ⟨h.2.2.1, h.2.2.2.1⟩

/-!
## C6 — ordering and caption placement

The claim's last part fails: the caption argument is
`full_caption if idx == 0 or not caption_text else None` (bot.py:590),
so in a bundle *with* a caption every item after the first is sent with
no caption at all — in particular without the expiry notice.
-/

/-- C6 (counterexample): a two-photo bundle with caption "hello" — the
first item carries caption plus notice, but the second item's caption
argument is `None`: it does not carry the expiry notice. -/
theorem later_items_lose_notice :
    (sendFilesToUser (fun i => Except.ok (200 + i))
        ⟨[⟨.photo, 1⟩, ⟨.photo, 2⟩], some "hello", 9, 0, 1⟩ "z").sentCaptions =
      [some ("hello" ++ "\n\n" ++ expiryNotice 9), none] ∧
    (sendFilesToUser (fun i => Except.ok (200 + i))
        ⟨[⟨.photo, 1⟩, ⟨.photo, 2⟩], some "hello", 9, 0, 1⟩ "z").sentCaptions.get? 1 =
      some none :=
  ⟨rfl, rfl⟩

/-- C6 (amended): under a fully successful transport the items go out in
input order (the i-th collected id is the transport's answer for item i);
only the first item carries the caption, and the first item always
carries the expiry notice; items after the first carry the notice only
when the bundle has no caption — with a caption they are sent with no
caption argument at all. -/
theorem caption_notice_amended (send : Transport) (fg : FileGroup) (code : String)
    (hok : ∀ i, i < fg.files.length → ∃ m, send i = Except.ok m) :
    (∀ i, i < fg.files.length →
      ∃ m, send i = Except.ok m ∧
        (sendFilesToUser send fg code).sentIds.get? i = some m) ∧
    (0 < fg.files.length →
      (sendFilesToUser send fg code).sentCaptions.get? 0 =
        some (some (fullCaption fg 0))) ∧
    (∀ i, 0 < i → i < fg.files.length →
      (sendFilesToUser send fg code).sentCaptions.get? i =
        some (if captionText fg = "" then some (expiryNotice fg.deleteSeconds)
              else none)) ∧
    fullCaption fg 0 =
      (if captionText fg = "" then expiryNotice fg.deleteSeconds
       else captionText fg ++ "\n\n" ++ expiryNotice fg.deleteSeconds) := by
  rw [sendFilesToUser_ok send fg code hok]
  refine ⟨?_, ?_, ?_, ?_⟩
  · intro i hi
    obtain ⟨m, hm⟩ := hok i hi
    refine ⟨m, hm, ?_⟩
    simp [List.get?_eq_getElem?, List.getElem?_map, List.getElem?_range, hi, hm, okValue]
  · intro hpos
    have h0 : (0 : Nat) < fg.files.length := hpos
    simp [List.get?_eq_getElem?, List.getElem?_map, List.getElem?_range, h0, sentCaption]
  · intro i hipos hi
    have hne : i ≠ 0 := Nat.pos_iff_ne_zero.mp hipos
    by_cases hcap : captionText fg = "" <;>
      simp [List.get?_eq_getElem?, List.getElem?_map, List.getElem?_range, hi,
        sentCaption, fullCaption, hne, hcap]
  · by_cases hcap : captionText fg = "" <;> simp [fullCaption, hcap]

/-- C6 (witness): in a caption-less two-photo bundle the second item does
carry the expiry notice. -/
theorem caption_notice_amended_witness :
    (sendFilesToUser (fun i => Except.ok (300 + i))
        ⟨[⟨.photo, 1⟩, ⟨.photo, 2⟩], none, 6, 0, 1⟩ "w").sentCaptions.get? 1 =
      some (if captionText ⟨[⟨.photo, 1⟩, ⟨.photo, 2⟩], none, 6, 0, 1⟩ = ""
            then some (expiryNotice 6) else none) :=
  (caption_notice_amended (fun i => Except.ok (300 + i))
    ⟨[⟨.photo, 1⟩, ⟨.photo, 2⟩], none, 6, 0, 1⟩ "w"
    (fun i _ => ⟨300 + i, rfl⟩)).2.2.1 1 (by norm_num) (by norm_num)

/-!
## C7 — rate limiting determinism
-/

/-- C7: requests at 0, 0.5, 1.0, 1.5 and 2.0 seconds yield Allowed,
Throttled 1, Throttled 1, Throttled 1 and Locked 10 in that order; after
the lockout is set, every request before its expiry yields Locked with a
remaining time non-increasing in the request time, leaving the state
untouched; and a request less than 2 seconds after the previous one with
the incremented count still below 5 yields Throttled of (2 s − elapsed)
rounded down. -/
theorem rate_limiting_determinism :
    (rateGateTrace none [0, 500, 1000, 1500, 2000]).1 =
      [.allowed, .throttled 1, .throttled 1, .throttled 1, .locked 10] ∧
    (∀ t₁ t₂ : Nat, t₁ ≤ t₂ → t₂ < 12000 →
      ∃ r₁ r₂,
        (rateGate (rateGateTrace none [0, 500, 1000, 1500, 2000]).2 t₁).1 = .locked r₁ ∧
        (rateGate (rateGateTrace none [0, 500, 1000, 1500, 2000]).2 t₂).1 = .locked r₂ ∧
        r₂ ≤ r₁ ∧
        (rateGate (rateGateTrace none [0, 500, 1000, 1500, 2000]).2 t₁).2 =
          (rateGateTrace none [0, 500, 1000, 1500, 2000]).2) ∧
    (∀ (info : SpamInfo) (now : Nat),
      info.blockedUntil = none → info.lastRequest ≤ now →
      now - info.lastRequest < 2000 → info.requestCount + 1 < 5 →
      (rateGate (some info) now).1 =
        .throttled ((2000 - (now - info.lastRequest)) / 1000)) := by
  refine ⟨by decide, ?_, ?_⟩
  · intro t₁ t₂ h12 h2
    have hst : (rateGateTrace none [0, 500, 1000, 1500, 2000]).2 =
        some ⟨5, 2000, some 12000⟩ := by decide
    rw [hst]
    have h1 : t₁ < 12000 := lt_of_le_of_lt h12 h2
    refine ⟨(12000 - t₁) / 1000, (12000 - t₂) / 1000, ?_, ?_, ?_, ?_⟩
    · simp [rateGate, isTempBlocked, h1]
    · simp [rateGate, isTempBlocked, h2]
    · exact Nat.div_le_div_right (Nat.sub_le_sub_left h12 12000)
    · simp [rateGate, isTempBlocked, h1]
  · intro info now hbu hle hdiff hcount
    have hrc : ¬ info.requestCount + 1 ≥ 5 := by omega
    have hw : ¬ (2000 - (now - info.lastRequest)) / 1000 ≥ 10 := by omega
    have hblocked : isTempBlocked (some info) now = ((false, 0), some info) := by
      simp [isTempBlocked, hbu]
    have hspam : checkSpam (some info) now =
        ((true, (2000 - (now - info.lastRequest)) / 1000),
         some { requestCount := info.requestCount + 1, lastRequest := now,
                blockedUntil := none }) := by
      simp [checkSpam, hdiff, hrc]
    simp [rateGate, hblocked, hspam, hw]

/-- C7 (witness): the throttling formula applied at a user whose previous
request was 500 milliseconds ago with two requests on the counter. -/
theorem rate_limiting_determinism_witness :
    (rateGate (some ⟨2, 500, none⟩) 1000).1 =
      RateOutcome.throttled ((2000 - (1000 - 500)) / 1000) :=
  rate_limiting_determinism.2.2 ⟨2, 500, none⟩ 1000 rfl (by norm_num)
    (by norm_num) (by norm_num)

/-!
## C1 — blocked users and gated content

The blocked flag is consulted only in `start_command` (bot.py:444); the
`redownload_` and `check_` branches of `button_callback` never read
`self.users`, so a blocked user holding a re-download button (or the
membership re-check button) is still delivered the bundle.
-/

/-- C1 (counterexample): a user whose record is blocked is refused by
`/start`, yet the very same interaction state lets that user obtain the
bundle through the re-download and re-check callbacks, which consult no
user record at all. -/
theorem blocked_user_redownload_delivery :
    (startCommand (fun _ _ => Except.error ()) (fun i => Except.ok (100 + i)) 7 0
        (some ⟨true⟩) ⟨false, none, [("c", ⟨[⟨.photo, 11⟩], none, 5, 0, 1⟩)], [], []⟩
        (some "c")).1 = .refusedBlocked ∧
    (redownloadCallback (fun _ _ => Except.error ()) (fun i => Except.ok (100 + i)) 7 0
        ⟨false, none, [("c", ⟨[⟨.photo, 11⟩], none, 5, 0, 1⟩)], [], []⟩ "c").1 =
      .delivered "c"
        { sentIds := [100], sentCaptions := [some (expiryNotice 5)],
          errorReported := false, scheduled := some ([100], 5, some "c"),
          downloadsAppended := 1 } ∧
    (checkCallback (fun _ _ => Except.error ()) (fun i => Except.ok (100 + i)) 7 0
        ⟨false, none, [("c", ⟨[⟨.photo, 11⟩], none, 5, 0, 1⟩)], [], []⟩ "c").1 =
      .delivered "c"
        { sentIds := [100], sentCaptions := [some (expiryNotice 5)],
          errorReported := false, scheduled := some ([100], 5, some "c"),
          downloadsAppended := 1 } :=
  ⟨rfl, rfl, rfl⟩

/-- C1 (amended): the blocked flag gates only the initial access-link
redemption: a user whose stored record is blocked is always refused by
`start_command` with no state change; the re-download and re-check
callbacks take no user record as input — they never consult the flag —
so delivery through them is possible for blocked users (see the
counterexample). -/
theorem blocked_refused_at_start_only (gw : Gateway) (send : Transport)
    (userId now : Nat) (u : UserRec) (st : BotState) (arg : Option String)
    (hb : u.isBlocked = true) :
    startCommand gw send userId now (some u) st arg = (.refusedBlocked, some u, st) := by
  simp [startCommand, hb]

/-- C1 (witness): the amended theorem at a concrete blocked record and an
access-code argument. -/
theorem blocked_refused_at_start_only_witness :
    startCommand (fun _ _ => Except.error ()) (fun i => Except.ok (100 + i)) 7 0
        (some ⟨true⟩) ⟨false, none, [], [], []⟩ (some "c") =
      (.refusedBlocked, some ⟨true⟩, ⟨false, none, [], [], []⟩) :=
  blocked_refused_at_start_only (fun _ _ => Except.error ())
    (fun i => Except.ok (100 + i)) 7 0 ⟨true⟩ ⟨false, none, [], [], []⟩
    (some "c") rfl

/-!
## C10 — trust markings survive a refused re-check
-/

/-- C10: when the re-check finds both an unmet auto-verify requirement
and an unmet trust-mode requirement, the interaction is refused with the
auto-failure alert, yet the resulting state's membership cache already
records every unmet trust-mode requirement as satisfied — the mutation is
not rolled back on the refusal. -/
theorem trust_marking_not_rolled_back (gw : Gateway) (send : Transport)
    (userId now : Nat) (st : BotState) (code : String) (a t : Channel)
    (hadm : st.isAdminUser = false) (hsp : st.spam = none)
    (ha : a ∈ (checkMembership gw userId st.channels st.memCache).notJoined)
    (haauto : a.canAutoVerify = true)
    (ht : t ∈ (checkMembership gw userId st.channels st.memCache).notJoined)
    (httrust : t.canAutoVerify = false) :
    (checkCallback gw send userId now st code).1 =
      .notJoinedAlert
        ((checkMembership gw userId st.channels st.memCache).notJoined.filter
          (fun c => c.canAutoVerify)) ∧
    cacheGet (checkCallback gw send userId now st code).2.memCache t.key = true := by
  have hgate : gateNonAdmin st.isAdminUser st.spam now =
      (none, some ⟨1, now, none⟩) := by
    simp [hadm, hsp, gateNonAdmin, rateGate, isTempBlocked, checkSpam]
  have hnj : (checkMembership gw userId st.channels st.memCache).notJoined ≠ [] :=
    List.ne_nil_of_mem ha
  have haf : (checkMembership gw userId st.channels st.memCache).notJoined.filter
      (fun c => c.canAutoVerify) ≠ [] :=
    List.ne_nil_of_mem (List.mem_filter.mpr ⟨ha, haauto⟩)
  have hmark : cacheGet
      (((checkMembership gw userId st.channels st.memCache).notJoined.filter
          (fun c => !c.canAutoVerify)).foldl
        (fun c ch => markUserJoinedChannel c ch.key)
        (checkMembership gw userId st.channels st.memCache).cache) t.key = true := by
    apply cacheGet_foldl_mark
    left
    exact List.mem_map.mpr
      ⟨t, List.mem_filter.mpr ⟨ht, by simp [httrust]⟩, rfl⟩
  constructor
  · simp [checkCallback, hgate, hnj, haf]
  · simp [checkCallback, hgate, hnj, haf, hmark]

/-- C10 (witness): one auto-verify channel the gateway reports `left`
for and one trust-mode channel; the alert names the auto channel while
the trust channel's key is already cached as joined. -/
theorem trust_marking_not_rolled_back_witness :
    (checkCallback (fun _ _ => Except.ok MemberStatus.left)
        (fun i => Except.ok (100 + i)) 7 0
        ⟨false, none, [], [⟨"A", some 1, true, "bA"⟩, ⟨"T", none, false, "bT"⟩], []⟩
        "c").1 =
      .notJoinedAlert
        ((checkMembership (fun _ _ => Except.ok MemberStatus.left) 7
            [⟨"A", some 1, true, "bA"⟩, ⟨"T", none, false, "bT"⟩] []).notJoined.filter
          (fun c => c.canAutoVerify)) ∧
    cacheGet (checkCallback (fun _ _ => Except.ok MemberStatus.left)
        (fun i => Except.ok (100 + i)) 7 0
        ⟨false, none, [], [⟨"A", some 1, true, "bA"⟩, ⟨"T", none, false, "bT"⟩], []⟩
        "c").2.memCache "T" = true :=
  trust_marking_not_rolled_back (fun _ _ => Except.ok MemberStatus.left)
    (fun i => Except.ok (100 + i)) 7 0
    ⟨false, none, [], [⟨"A", some 1, true, "bA"⟩, ⟨"T", none, false, "bT"⟩], []⟩
    "c" ⟨"A", some 1, true, "bA"⟩ ⟨"T", none, false, "bT"⟩
    rfl rfl (by decide) rfl (by decide) rfl

end AsalBot
